import Mathlib

/-!
Verification of the StudyHub backend (`src/server.js`) against its
natural-language specification.

The embedding models the Express route handlers of `src/server.js` as pure
Lean functions over an explicit database state `St`.  Each relational table
is a list of rows; the PostgreSQL queries issued by the handlers are
translated to the corresponding list operations.  Fallible storage steps
(queries inside the join transaction, the second INSERT of group creation)
take explicit failure flags so that error paths can be analysed.  The
`bcrypt` primitives are abstracted as function parameters, since the claims
only depend on whether the comparison succeeds.
-/

namespace StudyHub

/-- A row of the `users` table. -/
structure User where
  id : Int
  email : String
  passwordHash : String
  displayName : String
deriving DecidableEq

/-- A row of the `subjects` table. -/
structure Subject where
  id : Int
  name : String
deriving DecidableEq

/-- A row of the `groups` table.  `createdAt` models the `created_at`
timestamp used by `ORDER BY g.created_at DESC`. -/
structure Group where
  id : Int
  title : String
  subjectId : Int
  description : String
  ownerId : Int
  level : String
  maxMembers : Int
  createdAt : Nat
deriving DecidableEq

/-- A row of the `group_members` table.  The join INSERT omits the `role`
column, which we model as `none`; group creation inserts `some "owner"`. -/
structure Membership where
  groupId : Int
  userId : Int
  role : Option String
deriving DecidableEq

/-- A row of the `profiles` table (upsert-only, keyed by `user_id`). -/
structure ProfileRow where
  userId : Int
  bio : Option String
  location : Option String
  availability : Option String
deriving DecidableEq

/-- A row of the `group_messages` table. -/
structure Message where
  groupId : Int
  userId : Int
  text : String
deriving DecidableEq

/-- The database state: one list per table, plus the id sequences and a
logical clock supplying `created_at` values. -/
structure St where
  users : List User
  subjects : List Subject
  groups : List Group
  members : List Membership
  profiles : List ProfileRow
  messages : List Message
  nextUserId : Int
  nextGroupId : Int
  now : Nat
deriving DecidableEq

/-- The empty initial database. -/
def initSt : St :=
  { users := [], subjects := [], groups := [], members := [], profiles := [],
    messages := [], nextUserId := 1, nextGroupId := 1, now := 0 }

/-- HTTP responses produced by the handlers.  Error responses carry the
status code and the `error` message string sent by the code. -/
inductive Resp where
  | okRegister (userId : Int)
  | okLogin (userId : Int) (email displayName : String)
  | okSimple
  | okCreated (groupId : Int)
  | okJoin
  | err (code : Nat) (msg : String)
deriving DecidableEq

/-- JavaScript `x || d` for an optional string field of a JSON body:
an absent field or the empty string (both falsy) yield the default. -/
def jsOr (o : Option String) (d : String) : String :=
  match o with
  | none => d
  | some v => if v = "" then d else v

/-- JavaScript `x || null` applied to an optional string field: absent or
empty-string values are stored as SQL NULL. -/
def jsStrOrNull (o : Option String) : Option String :=
  match o with
  | none => none
  | some v => if v = "" then none else some v

/-- JavaScript `max_members || 10`: an absent field or the (falsy) number 0
defaults to 10; every other number, including negatives, is kept. -/
def jsMaxDefault (o : Option Int) : Int :=
  match o with
  | none => 10
  | some v => if v = 0 then 10 else v

/-- `POST /api/register` (src/server.js:61-86): reject missing fields with
400, reject an existing email with 409 Conflict, otherwise insert the user
with a salted hash and a fresh id.  `hash` abstracts `bcrypt.hash`. -/
def register (hash : String → String) (s : St)
    (email password displayName : String) : Resp × St :=
  if email = "" ∨ password = "" ∨ displayName = "" then
    (.err 400 "Missing required fields", s)
  else if s.users.any (fun u => u.email == email) then
    (.err 409 "Email already in use", s)
  else
    let u : User := { id := s.nextUserId, email := email,
                      passwordHash := hash password, displayName := displayName }
    (.okRegister s.nextUserId,
      { s with users := s.users ++ [u], nextUserId := s.nextUserId + 1 })

/-- `POST /api/login` (src/server.js:88-112): 400 on missing fields, then a
single lookup by email; an absent row and a hash mismatch both answer
401 "Invalid credentials".  `cmp` abstracts `bcrypt.compare`. -/
def login (cmp : String → String → Bool) (s : St)
    (email password : String) : Resp :=
  if email = "" ∨ password = "" then
    .err 400 "Email and password are required"
  else
    match s.users.find? (fun u => u.email == email) with
    | none => .err 401 "Invalid credentials"
    | some u =>
      if cmp password u.passwordHash then .okLogin u.id u.email u.displayName
      else .err 401 "Invalid credentials"

/-- `INSERT ... ON CONFLICT (user_id) DO UPDATE` over the profile list:
replace the row when the key is present, append otherwise. -/
def upsertRow (ps : List ProfileRow) (row : ProfileRow) : List ProfileRow :=
  if ps.any (fun p => p.userId == row.userId) then
    ps.map (fun p => if p.userId == row.userId then row else p)
  else ps ++ [row]

/-- `POST /api/profile` (src/server.js:116-129): upsert the caller's profile
row, storing each falsy field as NULL and overwriting all three columns. -/
def upsertProfile (s : St) (uid : Int)
    (bio location availability : Option String) : Resp × St :=
  let row : ProfileRow := { userId := uid, bio := jsStrOrNull bio,
                            location := jsStrOrNull location,
                            availability := jsStrOrNull availability }
  (.okSimple, { s with profiles := upsertRow s.profiles row })

/-- Reading the caller's profile row (the lookup performed by the
`LEFT JOIN profiles` of the match query). -/
def getProfile (s : St) (uid : Int) : Option ProfileRow :=
  s.profiles.find? (fun p => p.userId == uid)

/-- `POST /api/groups/:id/messages` (src/server.js:272-286): 400 on an empty
message, otherwise append the row; the handler consults neither the
`groups` nor the `group_members` table. -/
def postMessage (s : St) (gid uid : Int) (text : String) : Resp × St :=
  if text = "" then (.err 400 "Empty message", s)
  else (.okSimple, { s with messages := s.messages ++ [{ groupId := gid, userId := uid, text := text }] })

/-- The JSON body of `POST /api/groups`. -/
structure CreateGroupReq where
  title : String
  subjectId : Int
  description : Option String
  level : Option String
  maxMembers : Option Int
deriving DecidableEq

/-- `POST /api/groups` (src/server.js:158-176): two separate pool queries
with no surrounding transaction.  The group INSERT commits on its own; when
the subsequent membership INSERT fails (`failMem`), the handler answers 500
but the already-committed group row remains, with no membership. -/
def createGroup (s : St) (uid : Int) (req : CreateGroupReq)
    (failMem : Bool) : Resp × St :=
  let g : Group := { id := s.nextGroupId, title := req.title,
                     subjectId := req.subjectId,
                     description := jsOr req.description "",
                     ownerId := uid, level := jsOr req.level "mixed",
                     maxMembers := jsMaxDefault req.maxMembers,
                     createdAt := s.now }
  let inserted : List Membership :=
    if failMem then []
    else [{ groupId := g.id, userId := uid, role := some "owner" }]
  let s1 : St := { s with groups := s.groups ++ [g],
                          members := s.members ++ inserted,
                          nextGroupId := s.nextGroupId + 1, now := s.now + 1 }
  if failMem then (.err 500 "Failed to create group", s1)
  else (.okCreated g.id, s1)

/-- `SELECT max_members FROM groups WHERE id = $1`. -/
def findGroup (s : St) (gid : Int) : Option Group :=
  s.groups.find? (fun g => g.id == gid)

/-- `SELECT COUNT(*) FROM group_members WHERE group_id = $1`. -/
def memberCount (s : St) (gid : Int) : Nat :=
  s.members.countP (fun m => m.groupId == gid)

/-- `SELECT * FROM group_members WHERE group_id = $1 AND user_id = $2`
turned into a membership test. -/
def isMember (s : St) (gid : Int) (uid : Int) : Bool :=
  s.members.any (fun m => m.groupId == gid && m.userId == uid)

/-- The transactional body of `POST /api/groups/:id/join`
(src/server.js:184-219).  `fail k` injects a storage failure at the k-th
query of the transaction (0: group SELECT, 1: COUNT, 2: membership SELECT,
3: INSERT, 4: COMMIT); any failure is caught, rolled back and answered 500.
The checks run in source order: group existence, then capacity, then the
already-member test; only then is the membership inserted and committed. -/
def joinTx (fail : Nat → Bool) (s : St) (gid uid : Int) : Resp × St :=
  if fail 0 then (.err 500 "Failed to join group", s)
  else
    match findGroup s gid with
    | none => (.err 404 "Group not found", s)
    | some g =>
      if fail 1 then (.err 500 "Failed to join group", s)
      else if (memberCount s gid : Int) ≥ g.maxMembers then
        (.err 400 "Group is full", s)
      else if fail 2 then (.err 500 "Failed to join group", s)
      else if isMember s gid uid then (.err 400 "Already a member", s)
      else if fail 3 then (.err 500 "Failed to join group", s)
      else if fail 4 then (.err 500 "Failed to join group", s)
      else
        (.okJoin, { s with members := s.members ++
            [{ groupId := gid, userId := uid, role := none }] })

/-- JavaScript `parseInt(str)` restricted to what reaches the handler:
leading whitespace is skipped, an optional sign is consumed, a `0x`/`0X`
prefix switches to hexadecimal, and the longest digit prefix is parsed;
`none` models `NaN` (no digits at all). -/
def parseIntJS (str : String) : Option Int :=
  let cs := str.toList.dropWhile
    (fun c => c = ' ' ∨ c = '\t' ∨ c = '\n' ∨ c = '\r')
  let sgn : Int := match cs with | '-' :: _ => -1 | _ => 1
  let rest : List Char := match cs with
    | '-' :: r => r
    | '+' :: r => r
    | r => r
  let isHexDigit : Char → Bool := fun c =>
    c.isDigit || ('a' ≤ c && c ≤ 'f') || ('A' ≤ c && c ≤ 'F')
  let hexVal : Char → Nat := fun c =>
    if c.isDigit then c.toNat - 48
    else if 'a' ≤ c ∧ c ≤ 'f' then c.toNat - 87
    else c.toNat - 55
  match rest with
  | '0' :: x :: r2 =>
    if x = 'x' ∨ x = 'X' then
      let ds := r2.takeWhile isHexDigit
      if ds.isEmpty then none
      else some (sgn * (ds.foldl (fun n c => 16 * n + hexVal c) 0 : Nat))
    else
      let ds := rest.takeWhile Char.isDigit
      some (sgn * (ds.foldl (fun n c => 10 * n + (c.toNat - 48)) 0 : Nat))
  | _ =>
    let ds := rest.takeWhile Char.isDigit
    if ds.isEmpty then none
    else some (sgn * (ds.foldl (fun n c => 10 * n + (c.toNat - 48)) 0 : Nat))

/-- The full `POST /api/groups/:id/join` handler (src/server.js:178-219):
`parseInt` the path parameter and answer 400 "Invalid group ID" on `NaN`
before `pool.connect()`; otherwise run the transaction.  The third
component records whether a database connection was acquired. -/
def joinHandler (fail : Nat → Bool) (s : St) (rawId : String)
    (uid : Int) : Resp × St × Bool :=
  match parseIntJS rawId with
  | none => (.err 400 "Invalid group ID", s, false)
  | some gid =>
    let r := joinTx fail s gid uid
    (r.1, r.2, true)

/-- A row of the group-mode `/api/match` result set: the group joined with
its subject name, its owner's display name, and the live member count. -/
structure MatchRow where
  g : Group
  subjectName : String
  ownerName : String
  memberCount : Nat
deriving DecidableEq

/-- The optional level filter of the match query:
`AND (g.level = $2 OR g.level = 'mixed')` when a level is supplied. -/
def levelMatch (level : Option String) (gl : String) : Bool :=
  match level with
  | none => true
  | some l => gl == l || gl == "mixed"

/-- The `JOIN subjects ... JOIN users ...` row construction: the group row
is produced only when both referenced rows exist. -/
def joinRow (s : St) (g : Group) : Option MatchRow :=
  match s.subjects.find? (fun x => x.id == g.subjectId),
        s.users.find? (fun u => u.id == g.ownerId) with
  | some subj, some own =>
    some { g := g, subjectName := subj.name, ownerName := own.displayName,
           memberCount := memberCount s g.id }
  | _, _ => none

/-- Insertion step of the `ORDER BY created_at DESC` model. -/
def sortedInsertDesc (r : MatchRow) : List MatchRow → List MatchRow
  | [] => [r]
  | x :: xs =>
    if x.g.createdAt < r.g.createdAt then r :: x :: xs
    else x :: sortedInsertDesc r xs

/-- Stable sort of the result rows, newest creation time first. -/
def sortRowsDesc : List MatchRow → List MatchRow
  | [] => []
  | x :: xs => sortedInsertDesc x (sortRowsDesc xs)

/-- `GET /api/match` with `type=group` (src/server.js:222-254): join each
group with its subject and owner rows, keep the requested subject and the
level filter, order newest first and cap at 50, annotating each row with
the live member count. -/
def matchGroups (s : St) (sid : Int) (level : Option String) : List MatchRow :=
  (sortRowsDesc (s.groups.filterMap (fun g =>
    if g.subjectId == sid && levelMatch level g.level then joinRow s g
    else none))).take 50

/-- The annotation used by the specification-level description of the
group-mode match results. -/
def annotateRow (s : St) (g : Group) : MatchRow :=
  { g := g
    subjectName := ((s.subjects.find? (fun x => x.id == g.subjectId)).map Subject.name).getD ""
    ownerName := ((s.users.find? (fun u => u.id == g.ownerId)).map User.displayName).getD ""
    memberCount := memberCount s g.id }

/-- Specification-level description of the group-mode match results,
following the spec's words: exactly the groups of the requested subject
whose level equals the requested level or `"mixed"` (all groups of the
subject when no level is given), ordered newest first, capped at 50, each
annotated with its live member count. -/
def matchGroupsSpec (s : St) (sid : Int) (level : Option String) : List MatchRow :=
  (sortRowsDesc ((s.groups.filter (fun g =>
    g.subjectId == sid && levelMatch level g.level)).map (annotateRow s))).take 50

/-- Referential integrity of the group table: every group's subject and
owner rows exist (the foreign keys of the schema). -/
def RefOK (s : St) : Prop :=
  ∀ g ∈ s.groups,
    (s.subjects.find? (fun x => x.id == g.subjectId)).isSome ∧
    (s.users.find? (fun u => u.id == g.ownerId)).isSome

/-- The operations of the admission-control surface: group creation
(with its possible membership-insert failure) and join attempts (with
their failure schedule). -/
inductive Op where
  | create (uid : Int) (req : CreateGroupReq) (failMem : Bool)
  | join (fail : Nat → Bool) (gid uid : Int)

/-- State transition of a single operation (the response is discarded). -/
def execOp (s : St) : Op → St
  | .create uid req failMem => (createGroup s uid req failMem).2
  | .join fail gid uid => (joinTx fail s gid uid).2

/-- State after a sequence of operations. -/
def execOps (s : St) (ops : List Op) : St := ops.foldl execOp s

/-- The spec's core capacity invariant: every group's membership count is
at most its `max_members`. -/
def CapOK (s : St) : Prop :=
  ∀ g ∈ s.groups, (memberCount s g.id : Int) ≤ g.maxMembers

/-- The full inductive invariant: capacity, freshness of the group id
sequence with respect to both tables, and distinctness of group ids. -/
def Inv (s : St) : Prop :=
  CapOK s ∧
  (∀ g ∈ s.groups, g.id < s.nextGroupId) ∧
  (∀ m ∈ s.members, m.groupId < s.nextGroupId) ∧
  s.groups.Pairwise (fun a b => a.id ≠ b.id)

instance (s : St) : Decidable (CapOK s) := by
  unfold CapOK; infer_instance

instance (s : St) : Decidable (Inv s) := by
  unfold Inv CapOK; infer_instance

instance (s : St) : Decidable (RefOK s) := by
  unfold RefOK; infer_instance

/-- An operation drawn from the spec's domain: `create` requests carry a
`max_members` that is absent, zero (both defaulting to 10) or positive. -/
def goodOp : Op → Bool
  | .create _ req _ => decide ((1 : Int) ≤ jsMaxDefault req.maxMembers)
  | .join _ _ _ => true

/-- The constant all-queries-succeed failure schedule. -/
def noFail : Nat → Bool := fun _ => false

/-! ### Concrete states used by witnesses and counterexamples -/

/-- A one-user, one-group state in which the group (capacity 1) is full
with its owner, user 1. -/
def fullGroupSt : St :=
  { users := [{ id := 1, email := "a@b", passwordHash := "h", displayName := "A" }],
    subjects := [], groups := [{ id := 1, title := "t", subjectId := 1, description := "",
                                 ownerId := 1, level := "mixed", maxMembers := 1, createdAt := 0 }],
    members := [{ groupId := 1, userId := 1, role := some "owner" }],
    profiles := [], messages := [],
    nextUserId := 2, nextGroupId := 2, now := 1 }

/-- Like `fullGroupSt` but with capacity 5, so the group has a free seat. -/
def roomyGroupSt : St :=
  { fullGroupSt with
    groups := [{ id := 1, title := "t", subjectId := 1, description := "",
                 ownerId := 1, level := "mixed", maxMembers := 5, createdAt := 0 }] }

/-- The group used in `roomyGroupSt`. -/
def roomyGroup : Group :=
  { id := 1, title := "t", subjectId := 1, description := "",
    ownerId := 1, level := "mixed", maxMembers := 5, createdAt := 0 }

/-- A state with one subject, one owner and two groups of that subject:
one "advanced" (older), one "mixed" (newer). -/
def matchSt : St :=
  { users := [{ id := 1, email := "o@x", passwordHash := "h", displayName := "Owner" }],
    subjects := [{ id := 3, name := "math" }],
    groups := [{ id := 1, title := "g1", subjectId := 3, description := "", ownerId := 1,
                 level := "advanced", maxMembers := 10, createdAt := 0 },
               { id := 2, title := "g2", subjectId := 3, description := "", ownerId := 1,
                 level := "mixed", maxMembers := 10, createdAt := 1 }],
    members := [{ groupId := 1, userId := 1, role := some "owner" },
                { groupId := 2, userId := 1, role := some "owner" }],
    profiles := [], messages := [],
    nextUserId := 2, nextGroupId := 3, now := 2 }

/-- A create-then-join sequence within the spec's domain: a group of
capacity 2 is created by user 1, then user 2 joins it. -/
def witnessOps : List Op :=
  [Op.create 1 { title := "t", subjectId := 1, description := none,
                 level := none, maxMembers := some 2 } false,
   Op.join noFail 1 2]

/-! ### Helper lemmas -/

lemma find?_upsertRow (ps : List ProfileRow) (row : ProfileRow) :
    (upsertRow ps row).find? (fun p => p.userId == row.userId) = some row := by
  induction ps with
  | nil => simp [upsertRow]
  | cons p ps ih =>
    by_cases hp : p.userId = row.userId
    · simp [upsertRow, hp]
    · by_cases hq : ps.any (fun x => x.userId == row.userId)
      · simp [upsertRow, hq] at ih
        simp [upsertRow, hp, hq, ih]
      · simp [upsertRow, hq] at ih
        simp [upsertRow, hp, hq, ih]

lemma countP_append_singleton (ms : List Membership) (m : Membership) (gid : Int) :
    (ms ++ [m]).countP (fun x => x.groupId == gid) =
      ms.countP (fun x => x.groupId == gid) + (if m.groupId = gid then 1 else 0) := by
  simp [List.countP_append, List.countP_cons]

lemma countP_eq_zero_of_lt (ms : List Membership) (n : Int)
    (h : ∀ m ∈ ms, m.groupId < n) :
    ms.countP (fun x => x.groupId == n) = 0 := by
  rw [List.countP_eq_zero]
  intro m hm
  simp only [beq_iff_eq]
  exact ne_of_lt (h m hm)

lemma find?_group_unique (l : List Group) (gid : Int) (g g' : Group)
    (hpw : l.Pairwise (fun a b => a.id ≠ b.id))
    (hf : l.find? (fun x => x.id == gid) = some g)
    (hm : g' ∈ l) (hid : g'.id = gid) : g' = g := by
  induction l with
  | nil => simp at hm
  | cons a l ih =>
    rw [List.pairwise_cons] at hpw
    obtain ⟨ha, hpw2⟩ := hpw
    rcases List.mem_cons.mp hm with rfl | hm2
    · rw [List.find?_cons_of_pos _ (by simp [hid])] at hf
      exact (Option.some.inj hf)
    · by_cases hc : a.id = gid
      · exact absurd (hc.trans hid.symm) (ha g' hm2)
      · rw [List.find?_cons_of_neg _ (by simp [hc])] at hf
        exact ih hpw2 hf hm2

lemma joinTx_state_eq_or_ok (fail : Nat → Bool) (s : St) (gid uid : Int) :
    (joinTx fail s gid uid).2 = s ∨ (joinTx fail s gid uid).1 = .okJoin := by
  unfold joinTx
  split
  · exact Or.inl rfl
  · split
    · exact Or.inl rfl
    · split
      · exact Or.inl rfl
      · split
        · exact Or.inl rfl
        · split
          · exact Or.inl rfl
          · split
            · exact Or.inl rfl
            · split
              · exact Or.inl rfl
              · split
                · exact Or.inl rfl
                · exact Or.inr rfl

/-! ### Claim theorems -/

/-- C2, counterexample: the code decides the capacity predicate first.  In
`fullGroupSt`, user 1 already holds a membership of group 1, yet a repeat
join does not answer "Already a member": it answers 400 "Group is full",
because the member-count check at src/server.js:197 runs before the
already-member check at src/server.js:202. -/
theorem join_repeat_full_counterexample :
    isMember fullGroupSt 1 1 = true ∧
    (joinTx noFail fullGroupSt 1 1).1 = .err 400 "Group is full" ∧
    (joinTx noFail fullGroupSt 1 1).1 ≠ .err 400 "Already a member" := by
  decide

/-- C2, amended: for a user who already holds a membership row of an
existing group, a repeat join answers `AlreadyMember` exactly when the
group is strictly below capacity; the capacity predicate is decided first,
so a repeat join against a full group answers `GroupFull` instead. -/
theorem join_checks_capacity_before_membership (s : St) (g : Group) (gid uid : Int)
    (hfind : findGroup s gid = some g) (hmem : isMember s gid uid = true) :
    joinTx noFail s gid uid =
      if (memberCount s gid : Int) ≥ g.maxMembers then (.err 400 "Group is full", s)
      else (.err 400 "Already a member", s) := by
  unfold joinTx noFail
  rw [hfind]
  simp [hmem]

/-- C2, witness for the amended theorem at a below-capacity repeat join. -/
theorem join_checks_capacity_before_membership_witness :
    findGroup roomyGroupSt 1 = some roomyGroup ∧
    isMember roomyGroupSt 1 1 = true ∧
    joinTx noFail roomyGroupSt 1 1 = (.err 400 "Already a member", roomyGroupSt) := by
  refine ⟨by decide, by decide, ?_⟩
  have h := join_checks_capacity_before_membership roomyGroupSt roomyGroup 1 1
    (by decide) (by decide)
  simpa using h

/-- C3: evaluation of `createGroup` at the failing input in which the
owner-membership INSERT fails after the group INSERT succeeded
(src/server.js:158-176 runs the two INSERTs as separate pool queries with
no transaction).  The handler answers 500, yet the group row remains
visible with zero members — the atomicity the spec requires is violated. -/
theorem createGroup_not_atomic_eval :
    (createGroup initSt 1
        { title := "t", subjectId := 1, description := none,
          level := none, maxMembers := none } true).1
      = .err 500 "Failed to create group" ∧
    (createGroup initSt 1
        { title := "t", subjectId := 1, description := none,
          level := none, maxMembers := none } true).2.groups
      = [{ id := 1, title := "t", subjectId := 1, description := "", ownerId := 1,
           level := "mixed", maxMembers := 10, createdAt := 0 }] ∧
    memberCount (createGroup initSt 1
        { title := "t", subjectId := 1, description := none,
          level := none, maxMembers := none } true).2 1 = 0 := by
  decide

/-- C4: every non-success outcome of the join transaction — the 404, the
two 400 rejections, and any injected storage failure at any query of the
transaction — leaves the database state exactly as it was: the handler
rolls back before the INSERT commits (src/server.js:184-219). -/
theorem join_rejection_no_side_effect (fail : Nat → Bool) (s : St) (gid uid : Int)
    (h : (joinTx fail s gid uid).1 ≠ Resp.okJoin) :
    (joinTx fail s gid uid).2 = s :=
  (joinTx_state_eq_or_ok fail s gid uid).resolve_right h

/-- C4, witness: a join against an absent group is rejected and changes
nothing. -/
theorem join_rejection_no_side_effect_witness :
    (joinTx noFail initSt 1 2).1 ≠ Resp.okJoin ∧
    (joinTx noFail initSt 1 2).2 = initSt :=
  ⟨by decide, join_rejection_no_side_effect noFail initSt 1 2 (by decide)⟩

/-- C5: registering with an email that is already present in the `users`
table answers 409 "Email already in use" and leaves the state — in
particular the user table — unchanged; no second row is created
(src/server.js:61-86, the existence check precedes the INSERT). -/
theorem register_duplicate_email_conflict (hash : String → String) (s : St)
    (email password displayName : String)
    (he : email ≠ "") (hp : password ≠ "") (hd : displayName ≠ "")
    (hex : s.users.any (fun u => u.email == email) = true) :
    register hash s email password displayName = (.err 409 "Email already in use", s) := by
  unfold register
  simp [he, hp, hd, hex]

/-- C5, witness: re-registering the email of `fullGroupSt`'s user. -/
theorem register_duplicate_email_conflict_witness :
    (fullGroupSt.users.any (fun u => u.email == "a@b") = true) ∧
    register (fun p => p) fullGroupSt "a@b" "pw" "B" =
      (.err 409 "Email already in use", fullGroupSt) :=
  ⟨by decide,
   register_duplicate_email_conflict (fun p => p) fullGroupSt "a@b" "pw" "B"
     (by decide) (by decide) (by decide) (by decide)⟩

/-- C6: a login with an email absent from the `users` table and a login
with a present email whose password comparison fails produce identical
responses — the same 401 status and the same "Invalid credentials" message
(src/server.js:96-104) — so the response does not reveal whether the email
exists. -/
theorem login_error_indistinguishable
    (cmp1 cmp2 : String → String → Bool) (s1 s2 : St)
    (e1 p1 e2 p2 : String) (u : User)
    (he1 : e1 ≠ "") (hp1 : p1 ≠ "") (he2 : e2 ≠ "") (hp2 : p2 ≠ "")
    (habs : s1.users.find? (fun x => x.email == e1) = none)
    (hfound : s2.users.find? (fun x => x.email == e2) = some u)
    (hbad : cmp2 p2 u.passwordHash = false) :
    login cmp1 s1 e1 p1 = login cmp2 s2 e2 p2 ∧
    login cmp1 s1 e1 p1 = .err 401 "Invalid credentials" := by
  unfold login
  rw [habs, hfound]
  simp [he1, hp1, he2, hp2, hbad]

/-- C6, witness: an unknown email versus a wrong password for
`fullGroupSt`'s user. -/
theorem login_error_indistinguishable_witness :
    login (fun _ _ => false) initSt "x@y" "pw" =
      login (fun _ _ => false) fullGroupSt "a@b" "wrong" ∧
    login (fun _ _ => false) initSt "x@y" "pw" = .err 401 "Invalid credentials" :=
  login_error_indistinguishable (fun _ _ => false) (fun _ _ => false)
    initSt fullGroupSt "x@y" "pw" "a@b" "wrong"
    { id := 1, email := "a@b", passwordHash := "h", displayName := "A" }
    (by decide) (by decide) (by decide) (by decide) (by decide) (by decide) rfl

/-- C7: after two successive `upsertProfile` calls for the same user, a
read returns exactly the second call's fields: each supplied (truthy)
value, `none` for every omitted (or falsy) field — the first call's values
are cleared, not merged (src/server.js:116-129, the upsert overwrites all
three columns). -/
theorem upsertProfile_last_write_wins (s : St) (uid : Int)
    (b1 l1 a1 b2 l2 a2 : Option String) :
    getProfile ((upsertProfile ((upsertProfile s uid b1 l1 a1).2) uid b2 l2 a2).2) uid
      = some { userId := uid, bio := jsStrOrNull b2, location := jsStrOrNull l2,
               availability := jsStrOrNull a2 } := by
  have h := find?_upsertRow
      (upsertRow s.profiles
        { userId := uid, bio := jsStrOrNull b1, location := jsStrOrNull l1,
          availability := jsStrOrNull a1 })
      { userId := uid, bio := jsStrOrNull b2, location := jsStrOrNull l2,
        availability := jsStrOrNull a2 }
  simpa [getProfile, upsertProfile] using h

/-- C9: `postMessage` answers 400 "Empty message" exactly when the text is
empty, and otherwise appends the message row unconditionally — for any
state whatsoever, so no group-existence or membership check is involved —
and touches no other table (src/server.js:272-286). -/
theorem postMessage_empty_check_only (s : St) (gid uid : Int) (text : String) :
    (postMessage s gid uid text).1
        = (if text = "" then Resp.err 400 "Empty message" else .okSimple) ∧
    (postMessage s gid uid text).2
        = (if text = "" then s
           else { s with messages := s.messages ++
                    [{ groupId := gid, userId := uid, text := text }] }) := by
  by_cases h : text = "" <;> simp [postMessage, h]

/-- C10: when the `:id` path parameter does not parse as an integer
(JavaScript `parseInt` yields `NaN`), the join handler answers
400 "Invalid group ID" immediately: the state is unchanged and no database
connection is acquired (src/server.js:179-180, the check precedes
`pool.connect()`).  The final `false` records that no connection was
taken. -/
theorem join_invalid_id_rejected_early (fail : Nat → Bool) (s : St)
    (rawId : String) (uid : Int) (h : parseIntJS rawId = none) :
    joinHandler fail s rawId uid = (.err 400 "Invalid group ID", s, false) := by
  unfold joinHandler
  rw [h]

/-- C10, witness: the non-numeric parameter "abc". -/
theorem join_invalid_id_rejected_early_witness :
    parseIntJS "abc" = none ∧
    joinHandler noFail initSt "abc" 1 = (.err 400 "Invalid group ID", initSt, false) :=
  ⟨by decide, join_invalid_id_rejected_early noFail initSt "abc" 1 (by decide)⟩

lemma joinRow_eq_annotateRow (s : St) (g : Group)
    (h1 : (s.subjects.find? (fun x => x.id == g.subjectId)).isSome)
    (h2 : (s.users.find? (fun u => u.id == g.ownerId)).isSome) :
    joinRow s g = some (annotateRow s g) := by
  obtain ⟨subj, hsubj⟩ := Option.isSome_iff_exists.mp h1
  obtain ⟨own, hown⟩ := Option.isSome_iff_exists.mp h2
  unfold joinRow annotateRow
  rw [hsubj, hown]
  simp

lemma filterMap_joinRow (s : St) (q : Group → Bool) (l : List Group)
    (h : ∀ g ∈ l, joinRow s g = some (annotateRow s g)) :
    l.filterMap (fun g => if q g then joinRow s g else none)
      = (l.filter q).map (annotateRow s) := by
  induction l with
  | nil => simp
  | cons a l ih =>
    have ha := h a (List.mem_cons_self a l)
    have hl : ∀ g ∈ l, joinRow s g = some (annotateRow s g) :=
      fun g hg => h g (List.mem_cons_of_mem a hg)
    by_cases hq : q a
    · simp [List.filterMap_cons, List.filter_cons, hq, ha, ih hl]
    · simp [List.filterMap_cons, List.filter_cons, hq, ih hl]

/-- C8: under referential integrity of the group table (every group's
subject and owner rows exist, as the schema's foreign keys guarantee), the
group-mode match query returns exactly what the spec describes: the groups
of the requested subject whose level equals the requested one or `"mixed"`
— all of the subject's groups when no level is given — ordered newest
first by creation time, capped at 50, each annotated with its live member
count (src/server.js:222-254). -/
theorem matchGroups_eq_spec (s : St) (sid : Int) (level : Option String)
    (h : RefOK s) :
    matchGroups s sid level = matchGroupsSpec s sid level := by
  unfold matchGroups matchGroupsSpec
  rw [filterMap_joinRow s (fun g => g.subjectId == sid && levelMatch level g.level)
    s.groups (fun g hg => joinRow_eq_annotateRow s g (h g hg).1 (h g hg).2)]

/-- C8, witness: the `subject_id=3, level="advanced"` query of the spec's
scenario evaluated on `matchSt`. -/
theorem matchGroups_eq_spec_witness :
    RefOK matchSt ∧
    matchGroups matchSt 3 (some "advanced") = matchGroupsSpec matchSt 3 (some "advanced") :=
  ⟨by decide, matchGroups_eq_spec matchSt 3 (some "advanced") (by decide)⟩

lemma memberCount_join_insert (s : St) (gid uid x : Int) :
    memberCount { s with members :=
        s.members ++ [{ groupId := gid, userId := uid, role := none }] } x
      = memberCount s x + (if gid = x then 1 else 0) :=
  countP_append_singleton s.members { groupId := gid, userId := uid, role := none } x

lemma inv_create_core (s : St) (g : Group) (ms : List Membership)
    (hgid : g.id = s.nextGroupId)
    (hmax : (1 : Int) ≤ g.maxMembers)
    (hms1 : ∀ m ∈ ms, m.groupId = g.id)
    (hms2 : ms.length ≤ 1)
    (hInv : Inv s) :
    Inv { s with groups := s.groups ++ [g], members := s.members ++ ms,
                 nextGroupId := s.nextGroupId + 1, now := s.now + 1 } := by
  obtain ⟨hCap, hG, hM, hPw⟩ := hInv
  refine ⟨?_, ?_, ?_, ?_⟩
  · intro g2 hg2
    have hg2m : g2 ∈ s.groups ∨ g2 = g := by simpa using hg2
    show ((s.members ++ ms).countP (fun x => x.groupId == g2.id) : Int) ≤ g2.maxMembers
    rw [List.countP_append]
    rcases hg2m with hg2m | rfl
    · have hlt : g2.id < s.nextGroupId := hG g2 hg2m
      have hzero : ms.countP (fun x => x.groupId == g2.id) = 0 := by
        rw [List.countP_eq_zero]
        intro m hm
        simp only [beq_iff_eq]
        rw [hms1 m hm, hgid]
        exact ne_of_gt hlt
      have hc := hCap g2 hg2m
      unfold memberCount at hc
      omega
    · have hzero : s.members.countP (fun x => x.groupId == g2.id) = 0 := by
        apply countP_eq_zero_of_lt
        intro m hm
        rw [hgid]
        exact hM m hm
      have hle : ms.countP (fun x => x.groupId == g2.id) ≤ 1 :=
        le_trans (List.countP_le_length _) hms2
      omega
  · intro g2 hg2
    have hg2m : g2 ∈ s.groups ∨ g2 = g := by simpa using hg2
    show g2.id < s.nextGroupId + 1
    rcases hg2m with hg2m | rfl
    · have := hG g2 hg2m; omega
    · omega
  · intro m hm
    have hm2 : m ∈ s.members ∨ m ∈ ms := by simpa using hm
    show m.groupId < s.nextGroupId + 1
    rcases hm2 with hm2 | hm2
    · have := hM m hm2; omega
    · have := hms1 m hm2; omega
  · show (s.groups ++ [g]).Pairwise (fun a b => a.id ≠ b.id)
    rw [List.pairwise_append]
    refine ⟨hPw, by simp, ?_⟩
    intro a ha b hb
    have hb2 : b = g := by simpa using hb
    subst hb2
    have := hG a ha
    omega

lemma inv_createGroup (s : St) (uid : Int) (req : CreateGroupReq) (failMem : Bool)
    (hmax : (1 : Int) ≤ jsMaxDefault req.maxMembers) (hInv : Inv s) :
    Inv (createGroup s uid req failMem).2 := by
  cases failMem
  · have h := inv_create_core s
      { id := s.nextGroupId, title := req.title, subjectId := req.subjectId,
        description := jsOr req.description "", ownerId := uid,
        level := jsOr req.level "mixed", maxMembers := jsMaxDefault req.maxMembers,
        createdAt := s.now }
      [{ groupId := s.nextGroupId, userId := uid, role := some "owner" }]
      rfl hmax (by intro m hm; simp at hm; subst hm; rfl) (by simp) hInv
    simpa [createGroup] using h
  · have h := inv_create_core s
      { id := s.nextGroupId, title := req.title, subjectId := req.subjectId,
        description := jsOr req.description "", ownerId := uid,
        level := jsOr req.level "mixed", maxMembers := jsMaxDefault req.maxMembers,
        createdAt := s.now }
      [] rfl hmax (by simp) (by simp) hInv
    simpa [createGroup] using h

lemma inv_joinTx (fail : Nat → Bool) (s : St) (gid uid : Int) (hInv : Inv s) :
    Inv (joinTx fail s gid uid).2 := by
  obtain ⟨hCap, hG, hM, hPw⟩ := hInv
  unfold joinTx
  split
  · exact ⟨hCap, hG, hM, hPw⟩
  split
  · exact ⟨hCap, hG, hM, hPw⟩
  rename_i g heq
  split
  · exact ⟨hCap, hG, hM, hPw⟩
  split
  · exact ⟨hCap, hG, hM, hPw⟩
  rename_i hcap
  split
  · exact ⟨hCap, hG, hM, hPw⟩
  split
  · exact ⟨hCap, hG, hM, hPw⟩
  rename_i hmem
  split
  · exact ⟨hCap, hG, hM, hPw⟩
  split
  · exact ⟨hCap, hG, hM, hPw⟩
  unfold findGroup at heq
  have hgmem : g ∈ s.groups := List.mem_of_find?_eq_some heq
  have hgid : g.id = gid := by simpa using List.find?_some heq
  refine ⟨?_, ?_, ?_, ?_⟩
  · intro g2 hg2
    have hg2s : g2 ∈ s.groups := hg2
    rw [memberCount_join_insert]
    by_cases hid : g2.id = gid
    · have hg2g : g2 = g := find?_group_unique s.groups gid g g2 hPw heq hg2s hid
      subst hg2g
      rw [if_pos hid.symm, hid]
      omega
    · rw [if_neg (fun h => hid h.symm)]
      exact hCap g2 hg2s
  · intro g2 hg2
    have hg2s : g2 ∈ s.groups := hg2
    show g2.id < s.nextGroupId
    exact hG g2 hg2s
  · intro m hm
    show m.groupId < s.nextGroupId
    rcases List.mem_append.mp hm with hm2 | hm2
    · exact hM m hm2
    · have hm3 : m = { groupId := gid, userId := uid, role := none } := by
        simpa using hm2
      subst hm3
      show gid < s.nextGroupId
      rw [← hgid]
      exact hG g hgmem
  · exact hPw

lemma inv_execOp (s : St) (op : Op) (hInv : Inv s) (hop : goodOp op = true) :
    Inv (execOp s op) := by
  cases op with
  | create uid req failMem =>
    have hmax : (1 : Int) ≤ jsMaxDefault req.maxMembers := by
      simpa [goodOp] using hop
    exact inv_createGroup s uid req failMem hmax hInv
  | join fail gid uid => exact inv_joinTx fail s gid uid hInv

lemma inv_execOps (ops : List Op) : ∀ (s : St), Inv s →
    (∀ op ∈ ops, goodOp op = true) → Inv (execOps s ops) := by
  induction ops with
  | nil => intro s hInv _; exact hInv
  | cons op ops ih =>
    intro s hInv hops
    exact ih (execOp s op)
      (inv_execOp s op hInv (hops op (List.mem_cons_self op ops)))
      (fun o ho => hops o (List.mem_cons_of_mem op ho))

/-- C1, counterexample: from the empty (invariant-satisfying) database, a
single `createGroup` request carrying `max_members = -1` — which the
handler stores unvalidated, since `max_members || 10` only replaces absent
or zero values (src/server.js:164) — produces a group whose member count
(1, the owner) already exceeds its `max_members`. -/
theorem capacity_invariant_counterexample :
    Inv initSt ∧
    ¬ CapOK (execOps initSt
      [Op.create 1 { title := "t", subjectId := 1, description := none,
                     level := none, maxMembers := some (-1) } false]) := by
  decide

/-- C1, amended: for every starting state satisfying the invariant and
every sequence of `createGroup` and `join` operations in which each create
request's `max_members` is absent, zero (both defaulting to 10) or
positive, every group's membership count stays at most its `max_members`:
the locked join transaction inserts only when the count is strictly below
capacity (src/server.js:187-208), and group creation starts the group with
its single owner membership. -/
theorem capacity_invariant_amended (s : St) (ops : List Op) (hInv : Inv s)
    (hops : ∀ op ∈ ops, goodOp op = true) : CapOK (execOps s ops) :=
  (inv_execOps ops s hInv hops).1

/-- C1, witness for the amended theorem: create a capacity-2 group, then a
second user joins it. -/
theorem capacity_invariant_amended_witness :
    Inv initSt ∧ (∀ op ∈ witnessOps, goodOp op = true) ∧
    CapOK (execOps initSt witnessOps) :=
  ⟨by decide, by decide,
   capacity_invariant_amended initSt witnessOps (by decide) (by decide)⟩

end StudyHub

